import Mathlib

/-!
Verification development for the LinkedIn profile scraper
(`linkedin_scraper.py`).  The extraction pipeline of
`LinkedInProfileScraper.scrape_profile` is modelled as pure functions over a
`Page` value that records, for every locator the code issues against the
browser, the text the browser would return (`none` models the locator raising
`NoSuchElementException`, which the code catches).  The login flows and the
session lifecycle are modelled over explicit environments with `Except`
capturing Python exceptions.
-/

/-! ### Python string primitives -/

/-- Python whitespace for `str.strip()` / `\s`: space, `\t`, `\n`, `\r`,
vertical tab and form feed. -/
def pyWs (c : Char) : Bool :=
  c == ' ' || c == '\t' || c == '\n' || c == '\r' || c == '\x0b' || c == '\x0c'

/-- `str.strip()` on a character list: drop leading and trailing whitespace. -/
def pyStripList (l : List Char) : List Char :=
  ((l.dropWhile pyWs).reverse.dropWhile pyWs).reverse

/-- Python `str.strip()`. -/
def pyStrip (s : String) : String :=
  ⟨pyStripList s.data⟩

/-- `needle` occurs as a contiguous run starting at some position of `hay`. -/
def listSubOf (needle : List Char) : List Char → Bool
  | [] => needle.isEmpty
  | a :: t => needle.isPrefixOf (a :: t) || listSubOf needle t

/-- Python `needle in hay` substring test. -/
def strIn (needle hay : String) : Bool :=
  listSubOf needle.data hay.data

/-- Python `str.lower()` (ASCII case folding, which covers every lowercase
call site of the source: keyword checks on rendered text). -/
def pyLower (s : String) : String :=
  ⟨s.data.map Char.toLower⟩

/-- Python `str.split(sep)` for a one-character separator, on lists:
`"" ↦ [""]`, separators produce empty pieces. -/
def splitListOn (c : Char) : List Char → List (List Char)
  | [] => [[]]
  | a :: t =>
    if a = c then [] :: splitListOn c t
    else
      match splitListOn c t with
      | [] => [[a]]
      | h :: r => (a :: h) :: r

/-- Python `item_text.split('\n')`. -/
def pyLines (s : String) : List String :=
  (splitListOn '\n' s.data).map String.mk

/-! ### The three `re.findall` patterns of the source, as first-match scanners.

Each Python call only uses `dates[0]`, the first (leftmost) match, so the
models return the first match.  The patterns contain no constructs whose
backtracking can change the matched extent (maximal character-class runs are
forced by the following required class), so deterministic maximal-run
matching is faithful. -/

/-- Match `[A-Za-z]+\s+\d{4}.*` anchored at the head of `l`
(experience-duration pattern, line 355). -/
def expDurMatchAt (l : List Char) : Option (List Char) :=
  let letters := l.takeWhile Char.isAlpha
  if letters = [] then none
  else
    let r1 := l.dropWhile Char.isAlpha
    let ws := r1.takeWhile pyWs
    if ws = [] then none
    else
      let r2 := r1.dropWhile pyWs
      if r2.length ≥ 4 ∧ (r2.take 4).all Char.isDigit then
        some (letters ++ ws ++ r2.take 4 ++ ((r2.drop 4).takeWhile (fun c => c ≠ '\n')))
      else none

/-- Scan positions left to right for the first match of `f`. -/
def firstMatchPos (f : List Char → Option (List Char)) : List Char → Option (List Char)
  | [] => none
  | a :: t =>
    match f (a :: t) with
    | some m => some m
    | none => firstMatchPos f t

/-- `re.findall(r'([A-Za-z]+\s+\d{4}.*)', item_text)` first match (line 355). -/
def expDurationRegex (s : String) : Option String :=
  (firstMatchPos expDurMatchAt s.data).map String.mk

/-- Match `\d{4}\s*[-–]\s*\d{4}|\d{4}` anchored at the head of `l`
(education-duration pattern, line 442); the alternation prefers the range. -/
def eduDurMatchAt (l : List Char) : Option (List Char) :=
  if l.length ≥ 4 ∧ (l.take 4).all Char.isDigit then
    let d1 := l.take 4
    let r1 := l.drop 4
    let ws1 := r1.takeWhile pyWs
    let r2 := r1.dropWhile pyWs
    match r2 with
    | [] => some d1
    | c :: r3 =>
      if c = '-' ∨ c = '–' then
        let ws2 := r3.takeWhile pyWs
        let r4 := r3.dropWhile pyWs
        if r4.length ≥ 4 ∧ (r4.take 4).all Char.isDigit then
          some (d1 ++ ws1 ++ [c] ++ ws2 ++ r4.take 4)
        else some d1
      else some d1
  else none

/-- `re.findall(r'(\d{4}\s*[-–]\s*\d{4}|\d{4})', item_text)` first match
(line 442). -/
def eduDurationRegex (s : String) : Option String :=
  (firstMatchPos eduDurMatchAt s.data).map String.mk

/-- Match `\s*([A-Za-z]+\s+\d{4})` anchored at the head of `l`, returning the
group (certification-date pattern tail, line 520). -/
def certTail (l : List Char) : Option (List Char) :=
  let r1 := l.dropWhile pyWs
  let letters := r1.takeWhile Char.isAlpha
  if letters = [] then none
  else
    let r2 := r1.dropWhile Char.isAlpha
    let ws := r2.takeWhile pyWs
    if ws = [] then none
    else
      let r3 := r2.dropWhile pyWs
      if r3.length ≥ 4 ∧ (r3.take 4).all Char.isDigit then
        some (letters ++ ws ++ r3.take 4)
      else none

/-- Match `(Issued|Expires)?\s*([A-Za-z]+\s+\d{4})` at the head of `l`,
returning group 2 (the code keeps `dates[0][1]`, line 520-522).  If the
optional group matches but the tail fails, the engine backtracks to the
empty alternative. -/
def certMatchAt (l : List Char) : Option (List Char) :=
  if "Issued".data.isPrefixOf l then
    match certTail (l.drop 6) with
    | some g => some g
    | none => certTail l
  else if "Expires".data.isPrefixOf l then
    match certTail (l.drop 7) with
    | some g => some g
    | none => certTail l
  else certTail l

/-- `re.findall(r'(Issued|Expires)?\s*([A-Za-z]+\s+\d{4})', item_text)`,
group 2 of the first match (line 520). -/
def certDateRegex (s : String) : Option String :=
  (firstMatchPos certMatchAt s.data).map String.mk

/-! ### Data model: what the browser returns for each locator the code issues.

An `Item` is one candidate section element (one experience / education /
certification container).  Each field records the outcome of the one
sub-locator the code runs against it: `none` models the locator raising
(caught by the code), `some t` models a found element with raw text `t`. -/

structure Item where
  /-- `item.text` (rendered text of the container). -/
  text : String
  /-- `find_element("span[class*='t-bold'], h3, strong")` (experience title). -/
  tBoldH3Strong : Option String
  /-- `find_element("span[class*='t-bold'], h3")` (school / cert name). -/
  tBoldH3 : Option String
  /-- `find_element("span[class*='t-14']")` (company / degree / issuer). -/
  t14 : Option String
  /-- `find_element("span[class*='t-black--light']")` (duration). -/
  tBlackLight : Option String
  /-- `find_elements("span[class*='text-body-small']")` texts (location). -/
  textBodySmall : List String
  /-- `find_element("div[class*='show-more']")` (description). -/
  showMore : Option String
  deriving Repr, DecidableEq

/-- One page as seen through every locator `scrape_profile` issues. -/
structure Page where
  /-- `find_element("h1")` first-match text. -/
  name1 : Option String
  /-- `find_element("div[data-test-id='top-card-profile-name']")`. -/
  name2 : Option String
  /-- `find_element(".text-heading-xlarge")`. -/
  name3 : Option String
  /-- `find_element("h1.text-heading-xlarge")`. -/
  name4 : Option String
  /-- `find_elements(By.TAG_NAME, "h1")` texts (name fallback). -/
  h1Texts : List String
  /-- `find_element("div.text-body-medium")` (headline). -/
  headline1 : Option String
  /-- `find_element(".pv-text-details__left-panel .text-body-medium")`. -/
  headline2 : Option String
  /-- `find_element("span.text-body-small.inline")` (location). -/
  location1 : Option String
  /-- `find_element(".pv-text-details__left-panel .text-body-small")`. -/
  location2 : Option String
  /-- `find_elements("div[data-test-id='about'] div")` texts. -/
  about1 : List String
  /-- `find_elements(".pvs-list__outer-container div[class*='text']")` texts. -/
  about2 : List String
  /-- `find_elements("div[class*='about'] div[class*='text-body']")` texts. -/
  about3 : List String
  /-- `find_elements(".about__summary-text")` texts. -/
  about4 : List String
  /-- Experience strategy 1: items under the section that is an ancestor of an
  `Experience` heading (empty when the strategy finds nothing or raises). -/
  expStrategy1 : List Item
  /-- `find_elements("div[class*='pvs-entity']")`: shared fallback item pool
  for experience strategy 2, education strategy 2 and cert strategy 2. -/
  pvsEntities : List Item
  /-- Experience strategy 3: `find_elements("div[data-test-id*='experience']")`. -/
  expStrategy3 : List Item
  /-- Education strategy 1: items under the `Education` heading's section. -/
  eduStrategy1 : List Item
  /-- Cert strategy 1: items under the `Licenses`/`Certifications` section. -/
  certStrategy1 : List Item
  /-- `find_element(XPATH "//a[contains(@href, '/details/skills')]")` succeeds. -/
  skillsDetailsLink : Bool
  /-- `show_all.click()` does not raise. -/
  skillsClickOk : Bool
  /-- Texts of `.pvs-list__container .t-bold span[aria-hidden='true']`. -/
  skillsDetailsList : List String
  /-- `driver.back()` does not raise. -/
  skillsBackOk : Bool
  /-- `find_element(XPATH "//*[contains(text(), 'Skills')]")` and its parent
  lookup both succeed. -/
  skillsMainFound : Bool
  /-- Texts of `.t-bold span[aria-hidden='true']` under that parent. -/
  skillsMainList : List String
  deriving Repr, DecidableEq

/-- One extracted experience entry (`exp_data` dict: a key is present iff the
field is `some`). -/
structure ExpData where
  title : Option String
  company : Option String
  duration : Option String
  location : Option String
  description : Option String
  deriving Repr, DecidableEq

/-- One extracted education entry (`edu_data` dict). -/
structure EduData where
  school : Option String
  degree : Option String
  duration : Option String
  deriving Repr, DecidableEq

/-- One extracted certification entry (`cert_data` dict). -/
structure CertData where
  name : Option String
  issuer : Option String
  date : Option String
  deriving Repr, DecidableEq

/-- The `profile_data` dict returned by `scrape_profile` (lines 168-180). -/
structure ProfileData where
  url : String
  name : Option String
  headline : Option String
  location : Option String
  about : Option String
  current_company : Option String
  experience : List ExpData
  education : List EduData
  certifications : List CertData
  skills : List String
  languages : List String
  deriving Repr, DecidableEq

/-! ### Field resolution (the selector-fallback cascades) -/

/-- Python truthiness of `profile_data[field]` for an optional-string slot:
falsy iff `None` or the empty string. -/
def optFalsy : Option String → Bool
  | none => true
  | some s => s == ""

/-- A selector-list strategy outcome "wins" iff an element was found and its
stripped text is non-empty (the loop of lines 193-200). -/
def strategyWins : Option String → Bool
  | none => false
  | some t => !(pyStrip t == "")

/-- The name selector loop (lines 193-200): first strategy whose element has
non-empty stripped text wins, its stripped text is the value. -/
def resolveFirst : List (Option String) → Option String
  | [] => none
  | none :: rest => resolveFirst rest
  | some t :: rest =>
    if pyStrip t = "" then resolveFirst rest else some (pyStrip t)

/-- Number of strategies the loop evaluates (`find_element` calls): the loop
breaks at the first winner. -/
def resolveFirstTried : List (Option String) → Nat
  | [] => 0
  | none :: rest => 1 + resolveFirstTried rest
  | some t :: rest =>
    if pyStrip t = "" then 1 + resolveFirstTried rest else 1

/-- Name fallback over all `h1` elements (lines 202-209): first stripped text
that is non-empty and longer than 2 characters. -/
def firstH1 : List String → Option String
  | [] => none
  | t :: ts =>
    let s := pyStrip t
    if s ≠ "" ∧ s.length > 2 then some s else firstH1 ts

/-- Name extraction (lines 182-212): selector loop, then `h1` fallback when
still falsy. -/
def resolveName (p : Page) : Option String :=
  match resolveFirst [p.name1, p.name2, p.name3, p.name4] with
  | some t => some t
  | none => firstH1 p.h1Texts

/-- Headline extraction (lines 214-223): raw `.text` of the first selector's
element, else raw `.text` of the fallback selector's element (no strip, no
emptiness check). -/
def resolveHeadline (p : Page) : Option String :=
  match p.headline1 with
  | some t => some t
  | none => p.headline2

/-- Location extraction (lines 225-234): same two-selector pattern, raw
`.text`. -/
def resolveLocation (p : Page) : Option String :=
  match p.location1 with
  | some t => some t
  | none => p.location2

/-- One about strategy (lines 266-273): first element whose stripped text is
non-empty and longer than 20 characters. -/
def aboutScan : List String → Option String
  | [] => none
  | t :: ts =>
    let s := pyStrip t
    if s ≠ "" ∧ s.length > 20 then some s else aboutScan ts

/-- About extraction across the four strategies (lines 257-280). -/
def aboutFromStrategies : List (List String) → Option String
  | [] => none
  | l :: ls =>
    match aboutScan l with
    | some s => some s
    | none => aboutFromStrategies ls

/-- About extraction for a page. -/
def resolveAbout (p : Page) : Option String :=
  aboutFromStrategies [p.about1, p.about2, p.about3, p.about4]

/-- Item-collection cascade (`if not items: try next strategy`): the first
non-empty strategy result wins. -/
def firstNonEmptyList (ls : List (List Item)) : List Item :=
  match ls with
  | [] => []
  | l :: rest => if l.isEmpty then firstNonEmptyList rest else l

/-- Experience item collection (lines 292-317): heading-ancestor strategy,
then `pvs-entity` containers, then `data-test-id` match. -/
def expItems (p : Page) : List Item :=
  firstNonEmptyList [p.expStrategy1, p.pvsEntities, p.expStrategy3]

/-- Education item collection (lines 393-411): heading-ancestor strategy,
then the same `pvs-entity` containers. -/
def eduItems (p : Page) : List Item :=
  firstNonEmptyList [p.eduStrategy1, p.pvsEntities]

/-- Certification-keyword filter of strategy 2 (lines 481-487). -/
def certKeyword (t : String) : Bool :=
  let low := pyLower t
  strIn "certified" low || strIn "certification" low ||
    strIn "license" low || strIn "credential" low

/-- Certification item collection (lines 463-489): heading strategy, else the
`pvs-entity` containers filtered by keyword. -/
def certItems (p : Page) : List Item :=
  if !p.certStrategy1.isEmpty then p.certStrategy1
  else p.pvsEntities.filter (fun it => certKeyword it.text)

/-- The `exp_data` sub-field assignments for one processed item
(lines 322-372); run only when `item.text` is non-empty. -/
def expFields (it : Item) : ExpData :=
  let lines := pyLines it.text
  let title : Option String :=
    match it.tBoldH3Strong with
    | some t => some (pyStrip t)
    | none => lines.head?
  let company : Option String :=
    match it.t14 with
    | some t => some (pyStrip t)
    | none => lines.get? 1
  let duration : Option String :=
    match it.tBlackLight with
    | some t => some (pyStrip t)
    | none => expDurationRegex it.text
  let location : Option String := (it.textBodySmall.getLast?).map pyStrip
  let description : Option String := it.showMore.map pyStrip
  ⟨title, company, duration, location, description⟩

/-- Full per-item experience extraction (lines 320-379): skip empty-text
items; keep an item iff `exp_data` is non-empty and has a `title` or
`company` key (line 374). -/
def extractExp (it : Item) : Option ExpData :=
  if it.text = "" then none
  else
    let d := expFields it
    if (d.title.isSome || d.company.isSome || d.duration.isSome ||
        d.location.isSome || d.description.isSome) &&
       (d.title.isSome || d.company.isSome) then
      some d
    else none

/-- One step of the experience loop: append on success and update
`current_company` from the first appended entry with a truthy falsy-checked
slot (lines 374-379). -/
def extractExpStep (acc : List ExpData × Option String) (it : Item) :
    List ExpData × Option String :=
  match extractExp it with
  | none => acc
  | some d =>
    (acc.1 ++ [d],
     if optFalsy acc.2 && d.company.isSome then d.company else acc.2)

/-- The experience loop over the first 15 items (line 320), producing the
experience list and `current_company`. -/
def buildExperience (items : List Item) : List ExpData × Option String :=
  items.foldl extractExpStep ([], none)

/-- The `edu_data` sub-field assignments for one processed item
(lines 421-446). -/
def eduFields (it : Item) : EduData :=
  let lines := pyLines it.text
  let school : Option String :=
    match it.tBoldH3 with
    | some t => some (pyStrip t)
    | none => lines.head?
  let degree : Option String :=
    match it.t14 with
    | some t => some (pyStrip t)
    | none => lines.get? 1
  let duration : Option String := eduDurationRegex it.text
  ⟨school, degree, duration⟩

/-- Full per-item education extraction (lines 413-449): skip items whose text
is empty or whose lowercased text does not contain `"education"` (line 418);
keep an item iff `edu_data` is non-empty and has a `school` or `degree` key
(line 448). -/
def extractEdu (it : Item) : Option EduData :=
  if it.text = "" ∨ ¬ (strIn "education" (pyLower it.text) = true) then none
  else
    let d := eduFields it
    if (d.school.isSome || d.degree.isSome || d.duration.isSome) &&
       (d.school.isSome || d.degree.isSome) then
      some d
    else none

/-- The `cert_data` sub-field assignments for one processed item
(lines 493-524). -/
def certFields (it : Item) : CertData :=
  let lines := pyLines it.text
  let name : Option String :=
    match it.tBoldH3 with
    | some t => some (pyStrip t)
    | none => lines.head?
  let issuer : Option String :=
    match it.t14 with
    | some t => some (pyStrip t)
    | none => lines.get? 1
  let date : Option String := certDateRegex it.text
  ⟨name, issuer, date⟩

/-- Full per-item certification extraction (lines 491-527): skip empty-text
items; keep iff `cert_data` is non-empty and has a `name` or `issuer` key
(line 526). -/
def extractCert (it : Item) : Option CertData :=
  if it.text = "" then none
  else
    let d := certFields it
    if (d.name.isSome || d.issuer.isSome || d.date.isSome) &&
       (d.name.isSome || d.issuer.isSome) then
      some d
    else none

/-- Skills extraction (lines 535-558): the details-page path (link, click,
collect first 20 raw texts, `back()`), falling back to the main-page path
(first 10 raw texts) when any step of the first path raises; if the fallback
also raises after the list was already assigned, the assigned list stays. -/
def resolveSkills (p : Page) : List String :=
  if p.skillsDetailsLink && p.skillsClickOk then
    let s := p.skillsDetailsList.take 20
    if p.skillsBackOk then s
    else if p.skillsMainFound then p.skillsMainList.take 10 else s
  else if p.skillsMainFound then p.skillsMainList.take 10 else []

/-- Assembly of `profile_data` from a loaded page (lines 168-560).  The
`login()` call of lines 155-156 returns a `bool` that the code discards, so
it does not appear in the data flow; `languages` is initialised to `[]` and
never assigned. -/
def extractProfileData (url : String) (p : Page) : ProfileData :=
  let exp := buildExperience ((expItems p).take 15)
  { url := url
    name := resolveName p
    headline := resolveHeadline p
    location := resolveLocation p
    about := resolveAbout p
    current_company := exp.2
    experience := exp.1
    education := ((eduItems p).take 10).filterMap extractEdu
    certifications := ((certItems p).take 10).filterMap extractCert
    skills := resolveSkills p
    languages := [] }

/-! ### Authentication flows -/

/-- The authenticated-URL allow-list of the manual flow (lines 125-128). -/
def authUrlOk (u : String) : Bool :=
  strIn "feed" u || strIn "mynetwork" u ||
    u == "https://www.linkedin.com/" || strIn "/in/" u

/-- The polling loop of `manual_login_flow` (lines 121-133): the check runs
while `time - start < 120` with a 2-second sleep per iteration, so polls
happen at 0, 2, ..., 118 seconds: 60 polls.  `urls k` is what
`driver.current_url` yields at poll `k` (`error` models it raising, which
the surrounding `except` turns into `False`).  Returns the result and the
number of polls performed. -/
def manualLoginGo (urls : Nat → Except String String) : Nat → Nat → Bool × Nat
  | 0, k => (false, k)
  | fuel + 1, k =>
    match urls k with
    | Except.error _ => (false, k + 1)
    | Except.ok u =>
      if authUrlOk u then (true, k + 1) else manualLoginGo urls fuel (k + 1)

/-- `manual_login_flow` (lines 93-141): 120-second bound, 2-second interval
gives 60 polls; any exception is caught and becomes `False`. -/
def manualLoginFlow (urls : Nat → Except String String) : Bool × Nat :=
  manualLoginGo urls 60 0

/-- Environment for the credential flow: outcome of each fallible step of
the `try` block of `login` (lines 61-87), in program order. -/
structure LoginEnv where
  /-- `driver.get("https://www.linkedin.com/login")`. -/
  navigate : Except String Unit
  /-- `WebDriverWait(...).until(presence_of_element_located(ID "username"))`. -/
  findEmail : Except String Unit
  /-- `email_field.send_keys(email)`. -/
  sendEmail : Except String Unit
  /-- `find_element(ID "password")`. -/
  findPassword : Except String Unit
  /-- `password_field.send_keys(password)`. -/
  sendPassword : Except String Unit
  /-- `find_element("button[type='submit']")`. -/
  findSubmit : Except String Unit
  /-- `login_button.click()`. -/
  clickSubmit : Except String Unit
  /-- `driver.current_url` after the 5-second settle. -/
  finalUrl : Except String String

/-- The `try` body of the credential flow (lines 61-87): run each step,
propagating the first exception, then classify success by the allow-list
`feed` / `mynetwork` (line 82). -/
def loginBody (env : LoginEnv) : Except String Bool := do
  env.navigate
  env.findEmail
  env.sendEmail
  env.findPassword
  env.sendPassword
  env.findSubmit
  env.clickSubmit
  let u ← env.finalUrl
  pure (strIn "feed" u || strIn "mynetwork" u)

/-- `login` (lines 50-91): manual mode delegates to the manual flow; missing
credentials return `False` without touching the browser; otherwise the `try`
body runs and any exception is caught and converted to `False`
(lines 89-91). -/
def login (manualLogin : Bool) (urls : Nat → Except String String)
    (email password : Option String) (env : LoginEnv) : Bool :=
  if manualLogin then (manualLoginFlow urls).1
  else if optFalsy email || optFalsy password then false
  else
    match loginBody env with
    | Except.ok b => b
    | Except.error _ => false

/-! ### Session lifecycle and top-level control flow -/

/-- A live browser handle after `setup_driver`: whether the overall
navigation of lines 159-166 (`driver.get` plus the scroll scripts) succeeds,
and the page state it produces. -/
structure Driver where
  navOk : Bool
  page : Page
  deriving Repr, DecidableEq

/-- Scraper state and environment for one `scrape_profile` call: the driver
already held (if any), the outcome `setup_driver()` would have
(lines 34-48, not wrapped in any `try`), and the driver value left assigned
when setup raises after the `webdriver.Chrome` assignment of line 47
(e.g. in `maximize_window`). -/
structure ScrapeSession where
  driver : Option Driver
  setupResult : Except String Driver
  driverOnSetupFailure : Option Driver
  deriving Repr

/-- `scrape_profile` (lines 143-564).  `setup_driver` (line 154) runs outside
the `try`, so its exception propagates; inside the `try`, a navigation
failure reaches the `except` of line 562 and yields `None`; otherwise the
assembled record is returned.  (`login`, line 156, returns a discarded
`bool` and never raises: both flows catch internally.) -/
def scrapeProfile (sess : ScrapeSession) (url : String) :
    Except String (Option ProfileData) :=
  match sess.driver with
  | some d =>
    if d.navOk then Except.ok (some (extractProfileData url d.page))
    else Except.ok none
  | none =>
    match sess.setupResult with
    | Except.error e => Except.error e
    | Except.ok d =>
      if d.navOk then Except.ok (some (extractProfileData url d.page))
      else Except.ok none

/-- The driver held when the `with` block exits (what `close`, lines 566-569,
sees in `self.driver`). -/
def driverAtExit (sess : ScrapeSession) : Option Driver :=
  match sess.driver with
  | some d => some d
  | none =>
    match sess.setupResult with
    | Except.ok d => some d
    | Except.error _ => sess.driverOnSetupFailure

/-- `close` (lines 566-569): `driver.quit()` runs iff a driver is held;
returns the number of `quit` calls it makes. -/
def closeQuitCalls (driver : Option Driver) : Nat :=
  match driver with
  | some _ => 1
  | none => 0

/-- `scrape_linkedin_profile` (lines 580-595): the `with` statement runs the
body and then `__exit__` → `close` exactly once, on the normal path and on
the exceptional path alike (an escaping exception is re-raised after
`close`).  Result: the body outcome, the number of `close` invocations, and
the number of `driver.quit()` calls. -/
def scrapeLinkedinProfile (sess : ScrapeSession) (url : String) :
    Except String (Option ProfileData) × Nat × Nat :=
  match scrapeProfile sess url with
  | Except.ok r => (Except.ok r, 1, closeQuitCalls (driverAtExit sess))
  | Except.error e => (Except.error e, 1, closeQuitCalls (driverAtExit sess))

/-! ### Predicates used to state the claims, and concrete inputs -/

/-- A string is non-empty and equal to its own strip. -/
def strOkB (s : String) : Bool :=
  (!(s == "")) && (pyStrip s == s)

/-- An optional field is absent or a non-empty trimmed string. -/
def optOkB : Option String → Bool
  | none => true
  | some s => strOkB s

/-- All sub-fields of one experience entry are absent or non-empty trimmed. -/
def expOkB (e : ExpData) : Bool :=
  optOkB e.title && optOkB e.company && optOkB e.duration &&
    optOkB e.location && optOkB e.description

/-- All sub-fields of one education entry are absent or non-empty trimmed. -/
def eduOkB (e : EduData) : Bool :=
  optOkB e.school && optOkB e.degree && optOkB e.duration

/-- All sub-fields of one certification entry are absent or non-empty
trimmed. -/
def certOkB (e : CertData) : Bool :=
  optOkB e.name && optOkB e.issuer && optOkB e.date

/-- The invariant of spec claim C1 over a whole record: every field is
null/absent or a non-empty string equal to its own strip. -/
def recordOkB (d : ProfileData) : Bool :=
  strOkB d.url && optOkB d.name && optOkB d.headline && optOkB d.location &&
    optOkB d.about && optOkB d.current_company &&
    d.skills.all strOkB && d.languages.all strOkB &&
    d.experience.all expOkB && d.education.all eduOkB &&
    d.certifications.all certOkB

/-- "At least one experience sub-field resolves" for an item, in the
operational sense: the per-item extraction of lines 322-372 runs only when
`item.text` is non-empty, and then a sub-field resolves iff its key is set. -/
def expAnyResolved (it : Item) : Bool :=
  (!(it.text == "")) &&
    ((expFields it).title.isSome || (expFields it).company.isSome ||
      (expFields it).duration.isSome || (expFields it).location.isSome ||
      (expFields it).description.isSome)

/-- "At least one education sub-field resolves" for an item: the per-item
extraction of lines 421-446 runs only past the gate of line 418. -/
def eduAnyResolved (it : Item) : Bool :=
  (!(it.text == "")) && strIn "education" (pyLower it.text) &&
    ((eduFields it).school.isSome || (eduFields it).degree.isSome ||
      (eduFields it).duration.isSome)

/-- One `current_company` update step over an appended entry
(lines 377-379). -/
def ccStep (cc : Option String) (d : ExpData) : Option String :=
  if optFalsy cc && d.company.isSome then d.company else cc

/-- The company of the first experience entry whose `company` is present and
non-empty (truthy). -/
def firstTruthyCompany : List ExpData → Option String
  | [] => none
  | d :: t => if optFalsy d.company then firstTruthyCompany t else d.company

/-- An item with no text and no matching sub-locators. -/
def emptyItem : Item := ⟨"", none, none, none, none, [], none⟩

/-- A page on which every locator misses. -/
def emptyPage : Page :=
  ⟨none, none, none, none, [], none, none, none, none, [], [], [], [],
    [], [], [], [], [], false, false, [], false, false, []⟩

/-- A `pvs-entity` container whose rendered text is the single line
`Engineer` and whose sub-locators all miss. -/
def itemOneLine : Item := { emptyItem with text := "Engineer" }

/-- A container with two text lines `Dev` and `Acme`. -/
def itemTwoLine : Item := { emptyItem with text := "Dev\nAcme" }

/-- A page whose headline element exists with empty text. -/
def pageC1 : Page := { emptyPage with headline1 := some "" }

/-- A page whose first name selector matches with untrimmed text. -/
def pageW1 : Page := { emptyPage with name1 := some " Jane Doe " }

/-- A page whose experience items are `itemOneLine` then `itemTwoLine`. -/
def pageC9 : Page := { emptyPage with pvsEntities := [itemOneLine, itemTwoLine] }

/-- A page with a single two-line experience item. -/
def pageW9 : Page := { emptyPage with pvsEntities := [itemTwoLine] }

/-- An education candidate whose school/degree sub-locators match but whose
text does not contain `education`. -/
def itemW10 : Item :=
  { emptyItem with text := "MIT\nBS in Physics", tBoldH3 := some "MIT",
                   t14 := some "BS in Physics" }

/-- The name selector outcomes: miss, blank text, winner, later strategy. -/
def resultsW2 : List (Option String) :=
  [none, some "   ", some " Jane Doe ", some "ignored"]

/-- A URL trace that reaches the feed at the third poll. -/
def urlsW5 : Nat → Except String String := fun k =>
  Except.ok (if k < 2 then "https://www.linkedin.com/login"
             else "https://www.linkedin.com/feed/")

/-- A URL trace that never leaves the login page. -/
def urlsLogin : Nat → Except String String := fun _ =>
  Except.ok "https://www.linkedin.com/login"

/-- A credential-flow environment whose first navigation raises. -/
def loginEnvErr : LoginEnv :=
  ⟨Except.error "connection refused", Except.ok (), Except.ok (),
    Except.ok (), Except.ok (), Except.ok (), Except.ok (),
    Except.ok "https://www.linkedin.com/login"⟩

/-- A session whose driver acquisition raises before any driver exists. -/
def sessC8 : ScrapeSession := ⟨none, Except.error "could not start chrome", none⟩

/-- A healthy driver over the empty page. -/
def driver0 : Driver := ⟨true, emptyPage⟩

/-- A session that already holds a driver. -/
def sessOk : ScrapeSession := ⟨some driver0, Except.ok driver0, none⟩

/-! ### Helper lemmas -/

theorem dropWhile_head_not_pyWs (l : List Char) :
    ∀ a t, l.dropWhile pyWs = a :: t → pyWs a = false := by
  induction l with
  | nil => intro a t h; simp [List.dropWhile] at h
  | cons b l ih =>
    intro a t h
    rw [List.dropWhile_cons] at h
    by_cases hb : pyWs b = true
    · rw [if_pos hb] at h
      exact ih a t h
    · rw [if_neg hb] at h
      cases h
      exact Bool.eq_false_iff.mpr hb

theorem dropWhile_pyWs_idem (l : List Char) :
    (l.dropWhile pyWs).dropWhile pyWs = l.dropWhile pyWs := by
  cases h : l.dropWhile pyWs with
  | nil => simp
  | cons a t =>
    rw [List.dropWhile_cons, dropWhile_head_not_pyWs l a t h]
    simp

theorem exists_prepend_dropWhile (l : List Char) :
    ∃ pre, pre ++ l.dropWhile pyWs = l := by
  induction l with
  | nil => exact ⟨[], rfl⟩
  | cons a t ih =>
    by_cases h : pyWs a = true
    · obtain ⟨pre, hp⟩ := ih
      exact ⟨a :: pre, by simp [List.dropWhile_cons, h, hp]⟩
    · exact ⟨[], by simp [List.dropWhile_cons, h]⟩

theorem pyStripList_idem (l : List Char) :
    pyStripList (pyStripList l) = pyStripList l := by
  unfold pyStripList
  obtain ⟨pre, hp⟩ := exists_prepend_dropWhile (l.dropWhile pyWs).reverse
  cases hrev : ((l.dropWhile pyWs).reverse.dropWhile pyWs).reverse with
  | nil =>
    simp [hrev]
  | cons a t =>
    have hAeq : l.dropWhile pyWs = a :: (t ++ pre.reverse) := by
      have h2 := congrArg List.reverse hp
      rw [List.reverse_append, List.reverse_reverse] at h2
      rw [hrev] at h2
      simpa using h2.symm
    have ha : pyWs a = false := dropWhile_head_not_pyWs l a _ hAeq
    rw [List.dropWhile_cons, ha]
    simp only [Bool.false_eq_true, if_false]
    have h3 : (a :: t).reverse.dropWhile pyWs = (a :: t).reverse := by
      have := congrArg List.reverse hrev
      rw [List.reverse_reverse] at this
      rw [← this]
      exact dropWhile_pyWs_idem _
    rw [h3]
    simp

theorem pyStrip_idem (s : String) : pyStrip (pyStrip s) = pyStrip s :=
  congrArg String.mk (pyStripList_idem s.data)

theorem resolveFirst_ok :
    ∀ l s, resolveFirst l = some s → s ≠ "" ∧ pyStrip s = s := by
  intro l
  induction l with
  | nil => intro s h; simp [resolveFirst] at h
  | cons r rest ih =>
    intro s h
    cases r with
    | none => exact ih s h
    | some t =>
      rw [resolveFirst] at h
      by_cases ht : pyStrip t = ""
      · rw [if_pos ht] at h
        exact ih s h
      · rw [if_neg ht] at h
        cases h
        exact ⟨ht, pyStrip_idem t⟩

theorem firstH1_ok :
    ∀ l s, firstH1 l = some s → s ≠ "" ∧ pyStrip s = s := by
  intro l
  induction l with
  | nil => intro s h; simp [firstH1] at h
  | cons t rest ih =>
    intro s h
    rw [firstH1] at h
    by_cases hc : pyStrip t ≠ "" ∧ (pyStrip t).length > 2
    · rw [if_pos hc] at h
      cases h
      exact ⟨hc.1, pyStrip_idem t⟩
    · rw [if_neg hc] at h
      exact ih s h

theorem aboutScan_ok :
    ∀ l s, aboutScan l = some s → s ≠ "" ∧ pyStrip s = s := by
  intro l
  induction l with
  | nil => intro s h; simp [aboutScan] at h
  | cons t rest ih =>
    intro s h
    rw [aboutScan] at h
    by_cases hc : pyStrip t ≠ "" ∧ (pyStrip t).length > 20
    · rw [if_pos hc] at h
      cases h
      exact ⟨hc.1, pyStrip_idem t⟩
    · rw [if_neg hc] at h
      exact ih s h

theorem aboutFromStrategies_ok :
    ∀ ls s, aboutFromStrategies ls = some s → s ≠ "" ∧ pyStrip s = s := by
  intro ls
  induction ls with
  | nil => intro s h; simp [aboutFromStrategies] at h
  | cons l rest ih =>
    intro s h
    rw [aboutFromStrategies] at h
    cases hs : aboutScan l with
    | some v =>
      rw [hs] at h
      cases h
      exact aboutScan_ok l s hs
    | none =>
      rw [hs] at h
      exact ih s h

theorem resolveName_ok (p : Page) :
    ∀ s, resolveName p = some s → s ≠ "" ∧ pyStrip s = s := by
  intro s h
  rw [resolveName] at h
  cases hr : resolveFirst [p.name1, p.name2, p.name3, p.name4] with
  | some t =>
    rw [hr] at h
    cases h
    exact resolveFirst_ok _ s hr
  | none =>
    rw [hr] at h
    exact firstH1_ok _ s h

theorem splitListOn_ne_nil (c : Char) : ∀ l, splitListOn c l ≠ [] := by
  intro l
  induction l with
  | nil => simp [splitListOn]
  | cons a t ih =>
    rw [splitListOn]
    by_cases h : a = c
    · rw [if_pos h]; simp
    · rw [if_neg h]
      cases hs : splitListOn c t with
      | nil => simp
      | cons x r => simp

theorem pyLines_ne_nil (s : String) : pyLines s ≠ [] := by
  rw [pyLines]
  intro h
  rw [List.map_eq_nil_iff] at h
  exact splitListOn_ne_nil '\n' s.data h

theorem expFields_title_isSome (it : Item) :
    (expFields it).title.isSome = true := by
  rw [expFields]
  cases it.tBoldH3Strong with
  | some t => simp
  | none =>
    simp only
    cases hl : pyLines it.text with
    | nil => exact absurd hl (pyLines_ne_nil it.text)
    | cons a t => simp [hl]

theorem eduFields_school_isSome (it : Item) :
    (eduFields it).school.isSome = true := by
  rw [eduFields]
  cases it.tBoldH3 with
  | some t => simp
  | none =>
    simp only
    cases hl : pyLines it.text with
    | nil => exact absurd hl (pyLines_ne_nil it.text)
    | cons a t => simp [hl]

theorem foldl_expStep_fst :
    ∀ (items : List Item) (acc : List ExpData × Option String),
      (items.foldl extractExpStep acc).1 = acc.1 ++ items.filterMap extractExp := by
  intro items
  induction items with
  | nil => intro acc; simp
  | cons it rest ih =>
    intro acc
    rw [List.foldl_cons, List.filterMap_cons]
    cases h : extractExp it with
    | none =>
      rw [ih]
      simp [extractExpStep, h]
    | some d =>
      rw [ih]
      simp [extractExpStep, h]

theorem foldl_expStep_snd :
    ∀ (items : List Item) (acc : List ExpData × Option String),
      (items.foldl extractExpStep acc).2 =
        (items.filterMap extractExp).foldl ccStep acc.2 := by
  intro items
  induction items with
  | nil => intro acc; simp
  | cons it rest ih =>
    intro acc
    rw [List.foldl_cons, List.filterMap_cons]
    cases h : extractExp it with
    | none =>
      rw [ih]
      simp [extractExpStep, h]
    | some d =>
      rw [ih]
      simp [extractExpStep, ccStep, h]

theorem buildExperience_fst (items : List Item) :
    (buildExperience items).1 = items.filterMap extractExp := by
  rw [buildExperience, foldl_expStep_fst]
  simp

theorem buildExperience_snd (items : List Item) :
    (buildExperience items).2 = (items.filterMap extractExp).foldl ccStep none := by
  rw [buildExperience, foldl_expStep_snd]

theorem ccFold_not_falsy :
    ∀ (l : List ExpData) (cc : Option String), optFalsy cc = false →
      l.foldl ccStep cc = cc := by
  intro l
  induction l with
  | nil => intro cc _; rfl
  | cons d t ih =>
    intro cc h
    rw [List.foldl_cons]
    have : ccStep cc d = cc := by rw [ccStep, h]; simp
    rw [this]
    exact ih cc h

theorem ccFold_firstTruthy :
    ∀ (l : List ExpData) (cc : Option String), optFalsy cc = true →
      optFalsy (firstTruthyCompany l) = false →
      l.foldl ccStep cc = firstTruthyCompany l := by
  intro l
  induction l with
  | nil => intro cc hc ht; rw [firstTruthyCompany] at ht; simp [optFalsy] at ht
  | cons d t ih =>
    intro cc hc ht
    rw [List.foldl_cons]
    by_cases hd : optFalsy d.company = true
    · rw [firstTruthyCompany, if_pos hd] at ht ⊢
      have hstep : optFalsy (ccStep cc d) = true := by
        rw [ccStep]
        by_cases hs : d.company.isSome = true
        · rw [hc, hs]; simpa using hd
        · simp only [hc, Bool.true_and, hs]
          simpa using hc
      exact ih (ccStep cc d) hstep ht
    · rw [firstTruthyCompany, if_neg hd]
      have hds : d.company.isSome = true := by
        cases hcc : d.company with
        | none => rw [hcc] at hd; simp [optFalsy] at hd
        | some s => simp
      have hstep : ccStep cc d = d.company := by
        rw [ccStep, hc, hds]
        simp
      rw [hstep]
      exact ccFold_not_falsy t d.company (Bool.eq_false_iff.mpr hd)

theorem manualLoginGo_hit (urls : Nat → Except String String) :
    ∀ m fuel k, m < fuel →
      (∀ j, j < m → ∃ u, urls (k + j) = Except.ok u ∧ authUrlOk u = false) →
      (∃ u, urls (k + m) = Except.ok u ∧ authUrlOk u = true) →
      manualLoginGo urls fuel k = (true, k + m + 1) := by
  intro m
  induction m with
  | zero =>
    intro fuel k hm _ hk
    obtain ⟨u, hu, ha⟩ := hk
    cases fuel with
    | zero => omega
    | succ f =>
      rw [Nat.add_zero] at hu
      rw [manualLoginGo, hu]
      simp [ha]
  | succ m ih =>
    intro fuel k hm hbefore hk
    cases fuel with
    | zero => omega
    | succ f =>
      obtain ⟨u, hu, ha⟩ := hbefore 0 (Nat.succ_pos m)
      rw [Nat.add_zero] at hu
      rw [manualLoginGo, hu]
      simp only [ha, Bool.false_eq_true, if_false]
      have h1 : manualLoginGo urls f (k + 1) = (true, (k + 1) + m + 1) := by
        apply ih f (k + 1) (by omega)
        · intro j hj
          have := hbefore (j + 1) (by omega)
          rw [show k + (j + 1) = k + 1 + j by omega] at this
          exact this
        · rw [show k + 1 + m = k + (m + 1) by omega]
          exact hk
      rw [h1]
      congr 1
      omega

theorem manualLoginGo_timeout (urls : Nat → Except String String) :
    ∀ fuel k,
      (∀ j, j < fuel → ∃ u, urls (k + j) = Except.ok u ∧ authUrlOk u = false) →
      manualLoginGo urls fuel k = (false, k + fuel) := by
  intro fuel
  induction fuel with
  | zero => intro k _; rfl
  | succ f ih =>
    intro k hall
    obtain ⟨u, hu, ha⟩ := hall 0 (Nat.succ_pos f)
    rw [Nat.add_zero] at hu
    rw [manualLoginGo, hu]
    simp only [ha, Bool.false_eq_true, if_false]
    have h1 := ih (k + 1) (fun j hj => by
      have := hall (j + 1) (by omega)
      rw [show k + (j + 1) = k + 1 + j by omega] at this
      exact this)
    rw [h1]
    congr 1
    omega

theorem manualLoginGo_error (urls : Nat → Except String String) :
    ∀ m fuel k, m < fuel →
      (∀ j, j < m → ∃ u, urls (k + j) = Except.ok u ∧ authUrlOk u = false) →
      (∃ e, urls (k + m) = Except.error e) →
      manualLoginGo urls fuel k = (false, k + m + 1) := by
  intro m
  induction m with
  | zero =>
    intro fuel k hm _ hk
    obtain ⟨e, he⟩ := hk
    cases fuel with
    | zero => omega
    | succ f =>
      rw [Nat.add_zero] at he
      rw [manualLoginGo, he]
  | succ m ih =>
    intro fuel k hm hbefore hk
    cases fuel with
    | zero => omega
    | succ f =>
      obtain ⟨u, hu, ha⟩ := hbefore 0 (Nat.succ_pos m)
      rw [Nat.add_zero] at hu
      rw [manualLoginGo, hu]
      simp only [ha, Bool.false_eq_true, if_false]
      have h1 : manualLoginGo urls f (k + 1) = (false, (k + 1) + m + 1) := by
        apply ih f (k + 1) (by omega)
        · intro j hj
          have := hbefore (j + 1) (by omega)
          rw [show k + (j + 1) = k + 1 + j by omega] at this
          exact this
        · rw [show k + 1 + m = k + (m + 1) by omega]
          exact hk
      rw [h1]
      congr 1
      omega

/-! ### Claim theorems -/

/-- C2: for a field resolved through an ordered locator-strategy list (the
name selector loop of lines 193-200), if strategies `0..k-1` yield no element
with non-empty stripped text and strategy `k` yields one with text `t`, then
the resolved value is exactly `pyStrip t` and only the first `k + 1`
strategies are ever evaluated (strategies `k+1..N` are never attempted). -/
theorem c2_selector_short_circuit (results : List (Option String)) (k : Nat)
    (t : String)
    (hbefore : ∀ j, j < k → ∀ r, results.get? j = some r → strategyWins r = false)
    (hk : results.get? k = some (some t))
    (ht : pyStrip t ≠ "") :
    resolveFirst results = some (pyStrip t) ∧ resolveFirstTried results = k + 1 := by
  induction results generalizing k with
  | nil => simp at hk
  | cons r rest ih =>
    cases k with
    | zero =>
      simp only [List.get?] at hk
      cases hk
      constructor
      · rw [resolveFirst, if_neg ht]
      · rw [resolveFirstTried, if_neg ht]
    | succ k2 =>
      have hw := hbefore 0 (Nat.succ_pos k2) r (by simp [List.get?])
      have hk2 : rest.get? k2 = some (some t) := by simpa [List.get?] using hk
      have hb2 : ∀ j, j < k2 → ∀ r2, rest.get? j = some r2 → strategyWins r2 = false := by
        intro j hj r2 hr2
        exact hbefore (j + 1) (by omega) r2 (by simpa [List.get?] using hr2)
      obtain ⟨h1, h2⟩ := ih k2 hb2 hk2
      cases r with
      | none =>
        refine ⟨h1, ?_⟩
        rw [resolveFirstTried, h2]
        omega
      | some u =>
        have hu : pyStrip u = "" := by
          rw [strategyWins] at hw
          simpa using hw
        constructor
        · rw [resolveFirst, if_pos hu]
          exact h1
        · rw [resolveFirstTried, if_pos hu, h2]
          omega

/-- Witness for C2 on a concrete strategy list: a missing element, then a
whitespace-only element, then the winner ` Jane Doe `, then a strategy that
must never run; the value is the stripped winner and exactly 3 strategies
are evaluated. -/
theorem c2_selector_short_circuit_witness :
    resolveFirst resultsW2 = some (pyStrip " Jane Doe ") ∧
      resolveFirstTried resultsW2 = 3 :=
  c2_selector_short_circuit resultsW2 2 " Jane Doe "
    (by
      intro j hj r hr
      interval_cases j <;> simp [resultsW2, List.get?] at hr <;> subst hr <;> decide)
    (by rfl)
    (by decide)

/-- C10: an education candidate item contributes nothing to the education
list whenever its rendered text is empty or its lowercased text lacks the
substring `education` (the gate of line 418), even if its school/degree
sub-locators would resolve. -/
theorem c10_education_keyword_gate (it : Item)
    (h : it.text = "" ∨ strIn "education" (pyLower it.text) = false) :
    extractEdu it = none := by
  rw [extractEdu]
  rcases h with h | h
  · rw [if_pos (Or.inl h)]
  · rw [if_pos (Or.inr (by rw [h]; simp))]

/-- Witness for C10: a concrete item whose school and degree sub-locators
both resolve but whose text lacks `education` is skipped. -/
theorem c10_education_keyword_gate_witness : extractEdu itemW10 = none :=
  c10_education_keyword_gate itemW10
    (Or.inr (show strIn "education" (pyLower itemW10.text) = false by decide))

/-- C4: an item is appended to its list iff at least one of its sub-fields
resolves.  "Resolves" is operational: the per-item sub-field extraction runs
only for items that pass the text gate (non-empty for experience, line 325;
non-empty and containing `education` for education, line 418), and then a
sub-field resolves iff its key is assigned.  The `title`/`school` fallback
(first text line) always resolves for a gated item, which is why the
code's `title or company` / `school or degree` append condition coincides
with "at least one sub-field resolved". -/
theorem c4_item_kept_iff_any_subfield (it : Item) :
    (extractExp it).isSome = expAnyResolved it ∧
      (extractEdu it).isSome = eduAnyResolved it := by
  constructor
  · by_cases h : it.text = ""
    · simp [extractExp, expAnyResolved, h]
    · have ht := expFields_title_isSome it
      simp [extractExp, expAnyResolved, h, ht]
  · by_cases h1 : it.text = ""
    · simp [extractEdu, eduAnyResolved, h1]
    · by_cases h2 : strIn "education" (pyLower it.text) = true
      · have hs := eduFields_school_isSome it
        simp [extractEdu, eduAnyResolved, h1, h2, hs]
      · simp [extractEdu, eduAnyResolved, h1, h2]

/-- C1 counterexample: on a page whose headline element exists with empty
text (`pageC1`), the assembled record carries `headline = some ""`, because
line 217 assigns the raw element text with no strip and no emptiness check;
so the claimed every-field invariant `recordOkB` is false for this record. -/
theorem c1_counterexample :
    recordOkB (extractProfileData "https://www.linkedin.com/in/jane" pageC1) = false := by
  decide

/-- C1 amended: the trimmed-non-empty invariant holds for the fields whose
extraction checks stripped text — `name` (lines 193-209) and `about`
(lines 266-280) — and the never-assigned `languages` list stays empty; it
does not hold for `headline`, `location`, `skills`, `current_company` or the
item sub-fields, which copy raw element or line text. -/
theorem c1_amended_trimmed (url : String) (p : Page) :
    (∀ s, (extractProfileData url p).name = some s → s ≠ "" ∧ pyStrip s = s) ∧
      (∀ s, (extractProfileData url p).about = some s → s ≠ "" ∧ pyStrip s = s) ∧
      (extractProfileData url p).languages = [] := by
  refine ⟨?_, ?_, rfl⟩
  · intro s h
    have h2 : resolveName p = some s := h
    exact resolveName_ok p s h2
  · intro s h
    have h2 : aboutFromStrategies [p.about1, p.about2, p.about3, p.about4] = some s := h
    exact aboutFromStrategies_ok _ s h2

/-- Witness for C1 (amended) at a concrete page whose first name selector
returns ` Jane Doe `: the resolved name is non-empty and self-stripped. -/
theorem c1_amended_trimmed_witness :
    "Jane Doe" ≠ "" ∧ pyStrip "Jane Doe" = "Jane Doe" :=
  (c1_amended_trimmed "https://x" pageW1).1 "Jane Doe" (by decide)

/-- C3: regardless of how many candidate item elements the locator
strategies return, the record keeps at most 15 experience entries
(`[:15]`, line 320), at most 10 education entries (`[:10]`, line 413) and at
most 10 certification entries (`[:10]`, line 491), and every kept entry is
extracted from one of those first elements in locator order. -/
theorem c3_list_caps (url : String) (p : Page) :
    (extractProfileData url p).experience.length ≤ 15 ∧
      (extractProfileData url p).education.length ≤ 10 ∧
      (extractProfileData url p).certifications.length ≤ 10 ∧
      (∀ e ∈ (extractProfileData url p).experience,
        ∃ it ∈ (expItems p).take 15, extractExp it = some e) ∧
      (∀ e ∈ (extractProfileData url p).education,
        ∃ it ∈ (eduItems p).take 10, extractEdu it = some e) ∧
      (∀ e ∈ (extractProfileData url p).certifications,
        ∃ it ∈ (certItems p).take 10, extractCert it = some e) := by
  have hexp : (extractProfileData url p).experience =
      ((expItems p).take 15).filterMap extractExp := buildExperience_fst _
  have hedu : (extractProfileData url p).education =
      ((eduItems p).take 10).filterMap extractEdu := rfl
  have hcert : (extractProfileData url p).certifications =
      ((certItems p).take 10).filterMap extractCert := rfl
  refine ⟨?_, ?_, ?_, ?_, ?_, ?_⟩
  · rw [hexp]
    exact le_trans (List.length_filterMap_le _ _)
      (by rw [List.length_take]; exact Nat.min_le_left _ _)
  · rw [hedu]
    exact le_trans (List.length_filterMap_le _ _)
      (by rw [List.length_take]; exact Nat.min_le_left _ _)
  · rw [hcert]
    exact le_trans (List.length_filterMap_le _ _)
      (by rw [List.length_take]; exact Nat.min_le_left _ _)
  · intro e he
    rw [hexp] at he
    exact List.mem_filterMap.mp he
  · intro e he
    rw [hedu] at he
    exact List.mem_filterMap.mp he
  · intro e he
    rw [hcert] at he
    exact List.mem_filterMap.mp he

/-- Witness for C3 at a concrete page. -/
theorem c3_list_caps_witness :
    (extractProfileData "https://x" pageC9).experience.length ≤ 15 :=
  (c3_list_caps "https://x" pageC9).1

/-- C9 counterexample: on `pageC9` the first appended experience entry
(`Engineer`, a single-line item) has no `company` key, so `current_company`
is taken from the second entry (`Acme`), not from the first experience
entry: the claimed first-experience's-company equality is false. -/
theorem c9_counterexample :
    (extractProfileData "https://x" pageC9).experience ≠ [] ∧
      (extractProfileData "https://x" pageC9).current_company ≠
        ((extractProfileData "https://x" pageC9).experience.headD
          ⟨none, none, none, none, none⟩).company := by
  decide

/-- C9 amended: `current_company` equals the `company` sub-field of the
first experience entry whose `company` is present and truthy (non-empty) —
the guard of line 378 skips entries whose company key is absent and
overwrites values that are empty strings — whenever such an entry exists. -/
theorem c9_amended_first_truthy (url : String) (p : Page)
    (h : optFalsy (firstTruthyCompany (extractProfileData url p).experience) = false) :
    (extractProfileData url p).current_company =
      firstTruthyCompany (extractProfileData url p).experience := by
  have hexp : (extractProfileData url p).experience =
      ((expItems p).take 15).filterMap extractExp := buildExperience_fst _
  have hcc : (extractProfileData url p).current_company =
      (((expItems p).take 15).filterMap extractExp).foldl ccStep none :=
    buildExperience_snd _
  rw [hexp] at h ⊢
  rw [hcc]
  exact ccFold_firstTruthy _ none rfl h

/-- Witness for C9 (amended) on `pageW9`, whose single experience entry has
company `Acme`. -/
theorem c9_amended_first_truthy_witness :
    (extractProfileData "https://x" pageW9).current_company =
      firstTruthyCompany (extractProfileData "https://x" pageW9).experience :=
  c9_amended_first_truthy "https://x" pageW9 (by decide)

/-- C5: the manual login flow polls `current_url` every 2 seconds within a
120-second bound (60 polls, lines 118-133).  If the first matching poll is
poll `k` (0-based), the flow returns `true` at that poll (after `k + 1`
polls); if no poll within the bound matches, it returns `false` after all
60 polls; and an exception at any poll is caught and also yields `false`
(lines 139-141) — the flow never raises in any case. -/
theorem c5_manual_login_poll (urls : Nat → Except String String) :
    (∀ k, k < 60 →
      (∀ j, j < k → ∃ u, urls j = Except.ok u ∧ authUrlOk u = false) →
      (∃ u, urls k = Except.ok u ∧ authUrlOk u = true) →
      manualLoginFlow urls = (true, k + 1)) ∧
    ((∀ j, j < 60 → ∃ u, urls j = Except.ok u ∧ authUrlOk u = false) →
      manualLoginFlow urls = (false, 60)) ∧
    (∀ k, k < 60 →
      (∀ j, j < k → ∃ u, urls j = Except.ok u ∧ authUrlOk u = false) →
      (∃ e, urls k = Except.error e) →
      manualLoginFlow urls = (false, k + 1)) := by
  refine ⟨?_, ?_, ?_⟩
  · intro k hk hb hsucc
    have h := manualLoginGo_hit urls k 60 0 hk (by simpa using hb) (by simpa using hsucc)
    simpa [manualLoginFlow] using h
  · intro hall
    have h := manualLoginGo_timeout urls 60 0 (by simpa using hall)
    simpa [manualLoginFlow] using h
  · intro k hk hb herr
    have h := manualLoginGo_error urls k 60 0 hk (by simpa using hb) (by simpa using herr)
    simpa [manualLoginFlow] using h

/-- Witness for C5: on a URL trace that shows the login page at polls 0-1
and the feed from poll 2 on, the flow succeeds at the third poll. -/
theorem c5_manual_login_poll_witness : manualLoginFlow urlsW5 = (true, 3) :=
  (c5_manual_login_poll urlsW5).1 2 (by omega)
    (by
      intro j hj
      interval_cases j <;> exact ⟨_, rfl, by decide⟩)
    ⟨_, rfl, by decide⟩

/-- C6: in the credential flow, every exception raised during navigation,
field location, text entry or submission (any failing step of the `try`
body, lines 61-87) is caught by the handler of lines 89-91 and turned into
the return value `False`; `login` is total, so no exception escapes. -/
theorem c6_login_catches (urls : Nat → Except String String)
    (email password : Option String) (env : LoginEnv) (e : String)
    (h : loginBody env = Except.error e) :
    login false urls email password env = false := by
  rw [login]
  simp only [Bool.false_eq_true, if_false]
  split
  · rfl
  · rw [h]

/-- Witness for C6: a concrete environment whose initial navigation raises
`connection refused` makes `login` return `false`. -/
theorem c6_login_catches_witness :
    login false urlsLogin (some "a@b.c") (some "pw") loginEnvErr = false :=
  c6_login_catches urlsLogin (some "a@b.c") (some "pw") loginEnvErr
    "connection refused" (by rfl)

/-- C7: for every batch entered through `scrape_linkedin_profile`'s `with`
block, `close` is invoked exactly once on every exit path (normal result,
null result, or an exception escaping `scrape_profile`), and the browser
handle is quit exactly once when one is held (at most once overall). -/
theorem c7_close_exactly_once (sess : ScrapeSession) (url : String) :
    (scrapeLinkedinProfile sess url).2.1 = 1 ∧
      (scrapeLinkedinProfile sess url).2.2 = closeQuitCalls (driverAtExit sess) ∧
      closeQuitCalls (driverAtExit sess) ≤ 1 := by
  refine ⟨?_, ?_, ?_⟩
  · cases h : scrapeProfile sess url <;> simp [scrapeLinkedinProfile, h]
  · cases h : scrapeProfile sess url <;> simp [scrapeLinkedinProfile, h]
  · cases h : driverAtExit sess <;> simp [closeQuitCalls]

/-- C8 counterexample: with no driver held and a failing driver acquisition,
`scrape_profile` raises (`setup_driver` runs outside the `try` of line 158),
so the claim that it never raises to the caller is false. -/
theorem c8_counterexample :
    scrapeProfile sessC8 "https://www.linkedin.com/in/jane" =
      Except.error "could not start chrome" := rfl

/-- C8 amended: whenever a session is already held or driver acquisition
succeeds, `scrape_profile` returns without raising — a record whose `url`
field equals the requested URL when the overall navigation succeeds, and a
null record when it raises (lines 562-564); the only escaping exception is
a session-acquisition failure with no driver held. -/
theorem c8_amended_no_raise (sess : ScrapeSession) (url : String) :
    ((sess.driver.isSome = true ∨ ∃ d, sess.setupResult = Except.ok d) →
      ∃ r, scrapeProfile sess url = Except.ok r) ∧
    (∀ rec, scrapeProfile sess url = Except.ok (some rec) → rec.url = url) ∧
    (∀ e, scrapeProfile sess url = Except.error e →
      sess.driver = none ∧ sess.setupResult = Except.error e) := by
  refine ⟨?_, ?_, ?_⟩
  · intro h
    cases hd : sess.driver with
    | some d =>
      by_cases hn : d.navOk = true
      · exact ⟨some (extractProfileData url d.page), by simp [scrapeProfile, hd, hn]⟩
      · exact ⟨none, by simp [scrapeProfile, hd, hn]⟩
    | none =>
      rcases h with h | ⟨d, hs⟩
      · rw [hd] at h
        simp at h
      · by_cases hn : d.navOk = true
        · exact ⟨some (extractProfileData url d.page), by simp [scrapeProfile, hd, hs, hn]⟩
        · exact ⟨none, by simp [scrapeProfile, hd, hs, hn]⟩
  · intro rec h
    cases hd : sess.driver with
    | some d =>
      by_cases hn : d.navOk = true
      · simp [scrapeProfile, hd, hn] at h
        rw [← h]
        rfl
      · simp [scrapeProfile, hd, hn] at h
    | none =>
      cases hs : sess.setupResult with
      | error e2 => simp [scrapeProfile, hd, hs] at h
      | ok d =>
        by_cases hn : d.navOk = true
        · simp [scrapeProfile, hd, hs, hn] at h
          rw [← h]
          rfl
        · simp [scrapeProfile, hd, hs, hn] at h
  · intro e h
    cases hd : sess.driver with
    | some d =>
      by_cases hn : d.navOk = true
      · simp [scrapeProfile, hd, hn] at h
      · simp [scrapeProfile, hd, hn] at h
    | none =>
      cases hs : sess.setupResult with
      | error e2 =>
        simp [scrapeProfile, hd, hs] at h
        exact ⟨rfl, by rw [h]⟩
      | ok d =>
        by_cases hn : d.navOk = true
        · simp [scrapeProfile, hd, hs, hn] at h
        · simp [scrapeProfile, hd, hs, hn] at h

/-- Witness for C8 (amended): a session that already holds a healthy driver
yields an `ok` result. -/
theorem c8_amended_no_raise_witness :
    ∃ r, scrapeProfile sessOk "https://www.linkedin.com/in/jane" = Except.ok r :=
  (c8_amended_no_raise sessOk "https://www.linkedin.com/in/jane").1 (Or.inl rfl)
